import Mathlib

/-
Verification development for valentinsg/valen-dev-helpers.

Shallow embedding of:
  - src/main.py          (rate limiter, /convert-image endpoint pipeline)
  - src/utils/convert_image.py   (convert_image_to_webp input validation)
  - src/utils/convert_video.py   (convert_video_to_webm resource handling)

Conventions of the embedding:
  - Byte strings are `List Nat`; `time.time()` values are rationals (the code
    only compares and subtracts them).
  - The PIL decode/transform/encode body is a parameter `pil`; everything the
    Python code does before and after it is embedded from the source.
  - Raising HTTPException(code, detail) is modelled as returning an
    `ImgResponse.httpError code detail` value.
  - Python f-strings quote filenames with U+0027; the constant `quoteMark` below is
    that character, so the message strings are reproduced exactly.
-/

set_option maxHeartbeats 1000000

/-- Single-quote character U+0027, as used inside the Python f-string messages. -/
def quoteMark : String := String.singleton (Char.ofNat 39)

/-! ### Rate limiter (src/main.py lines 38-61) -/

/-- RATE_LIMIT_REQUESTS (main.py line 38). -/
def RATE_LIMIT_REQUESTS : Nat := 20

/-- RATE_LIMIT_WINDOW in seconds (main.py line 39). -/
def RATE_LIMIT_WINDOW : ℚ := 60

/-- The list comprehension of check_rate_limit (main.py lines 50-51): keep the
timestamps with `current_time - req_time < RATE_LIMIT_WINDOW`. -/
def pruneWindow (now : ℚ) (times : List ℚ) : List ℚ :=
  times.filter (fun t => decide (now - t < RATE_LIMIT_WINDOW))

/-- check_rate_limit (main.py lines 44-61), acting on one client identity's
stored timestamp list (`request_counts[client_ip]`).  Returns
(admitted?, new stored list); `false` models raising HTTP 429, in which case
the arriving timestamp is not recorded. -/
def check_rate_limit (times : List ℚ) (now : ℚ) : Bool × List ℚ :=
  let pruned := pruneWindow now times
  if RATE_LIMIT_REQUESTS ≤ pruned.length then (false, pruned)
  else (true, pruned ++ [now])

/-- Iterating check_rate_limit over a sequence of call times for one client,
starting from a stored list `st`.  Returns the final stored list together with
the admitted call times in arrival order. -/
def rateLimitRun : List ℚ → List ℚ → List ℚ × List ℚ
  | [], st => (st, [])
  | now :: rest, st =>
    let step := check_rate_limit st now
    let r := rateLimitRun rest step.2
    (r.1, if step.1 then now :: r.2 else r.2)

/-! ### Image codec adapter (src/utils/convert_image.py lines 14-235) -/

/-- An uploaded file as the endpoint sees it: filename, declared content type
and byte payload.  A missing/None filename is the empty string (both are falsy
in Python). -/
structure FileInput where
  filename : String
  content_type : String
  content : List Nat
deriving Repr, DecidableEq

/-- The two exception classes raised by convert_image_to_webp:
ValueError for bad parameters, ImageConversionError for conversion failures. -/
inductive ImgError where
  | valueError : String → ImgError
  | imageConversionError : String → ImgError
deriving Repr, DecidableEq

/-- Python str(e) applied to the exceptions of convert_image_to_webp. -/
def imgErrorStr : ImgError → String
  | .valueError m => m
  | .imageConversionError m => m

/-- convert_image_to_webp (convert_image.py lines 14-235).

`pil` abstracts the external PIL decode/transform/encode body (lines 94-207):
it receives the payload, quality and method and returns the encoded WebP bytes
or the message of the exception it raised; every `pil` failure is wrapped as
ImageConversionError (lines 197-223), matching the except-clauses which wrap
UnidentifiedImageError, DecompressionBombError, MemoryError and any other
exception.  `preserve_metadata` and `auto_orient` only alter that PIL body and
are absorbed into `pil` (the API always calls with their default values).

The source compares `len(input_bytes)/(1024*1024) > 10` in floats; division by
2^20 is exact in binary floating point, so this is exactly the integer
comparison `10*1024*1024 < content.length`. -/
def convert_image_to_webp (pil : List Nat → Int → Int → Except String (List Nat))
    (filename : String) (content : List Nat) (quality : Int) (method : Int)
    (max_dimension : Option Int) : Except ImgError (List Nat) :=
  if ¬ (60 ≤ quality ∧ quality ≤ 100) then
    .error (.valueError ("La calidad debe estar entre 60 y 100, recibido: " ++ toString quality))
  else if ¬ (0 ≤ method ∧ method ≤ 6) then
    .error (.valueError ("El método debe estar entre 0 y 6, recibido: " ++ toString method))
  else if max_dimension.any (fun d => decide (d ≤ 0)) then
    .error (.valueError "La dimensión máxima debe ser positiva")
  else if content.length = 0 then
    .error (.imageConversionError ("El archivo " ++ quoteMark ++ filename ++ quoteMark ++ " está vacío"))
  else if 10 * 1024 * 1024 < content.length then
    .error (.imageConversionError
      ("El archivo " ++ quoteMark ++ filename ++ quoteMark ++ " excede el tamaño máximo de 10MB"))
  else
    match pil content quality method with
    | .ok out => .ok out
    | .error e => .error (.imageConversionError e)

/-! ### os.path.splitext, as used for output filenames (main.py line 185) -/

/-- str.rfind: index of the last occurrence of `c` in `cs`, or -1. -/
def rfind (cs : List Char) (c : Char) : Int :=
  match cs with
  | [] => -1
  | x :: xs =>
    let r := rfind xs c
    if 0 ≤ r then r + 1 else if x = c then 0 else -1

/-- os.path.splitext(s)[0] (posixpath.splitext): cut at the last dot when it
lies after the last path separator and at least one earlier character of the
basename is not a dot (leading dots never start an extension). -/
def splitextRoot (s : String) : String :=
  let cs := s.data
  let sepIndex := rfind cs '/'
  let dotIndex := rfind cs '.'
  if sepIndex < dotIndex ∧
      ((cs.drop (sepIndex + 1).toNat).take (dotIndex - (sepIndex + 1)).toNat).any
        (fun c => c != '.') = true
  then String.mk (cs.take dotIndex.toNat)
  else s

/-! ### /convert-image endpoint (src/main.py lines 91-257) -/

/-- MAX_FILE_SIZE (main.py line 107). -/
def MAX_FILE_SIZE : Nat := 10 * 1024 * 1024

/-- MAX_TOTAL_SIZE (main.py line 108). -/
def MAX_TOTAL_SIZE : Nat := 50 * 1024 * 1024

/-- MAX_FILES (main.py line 109). -/
def MAX_FILES : Nat := 20

/-- ALLOWED_TYPES (main.py lines 110-113). -/
def ALLOWED_TYPES : List String :=
  ["image/jpeg", "image/jpg", "image/png", "image/gif", "image/webp", "image/bmp"]

/-- Python `quality is not None and (quality < 60 or quality > 100)`
(main.py line 116). -/
def qualityOutOfRange : Option Int → Bool
  | some q => decide (q < 60) || decide (100 < q)
  | none => false

/-- Python `quality or 80` (main.py line 183): None and 0 are falsy. -/
def qualityOr80 : Option Int → Int
  | some q => if q = 0 then 80 else q
  | none => 80

/-- The `elif files and len(files) > 0 and files[0].filename` branch of
main.py lines 127-128. -/
def filesFallback : Option (List FileInput) → Option (List FileInput)
  | some (f :: fs) => if f.filename ≠ "" then some (f :: fs) else none
  | _ => none

/-- main.py lines 122-133: pick the single `file` field when present with a
truthy filename, else the `files` list when nonempty with a named first file;
`none` models the "no files" HTTPException of lines 129-133. -/
def processedFiles (file : Option FileInput) (files : Option (List FileInput)) :
    Option (List FileInput) :=
  match file with
  | some f => if f.filename ≠ "" then some [f] else filesFallback files
  | none => filesFallback files

/-- main.py lines 142-169: the per-file validation loop.  Returns the
(status code, detail) of the first failing check, or the accumulated total
size when every file passes. -/
def validateLoop : List FileInput → Nat → Except (Nat × String) Nat
  | [], total => .ok total
  | f :: fs, total =>
    if f.content.length = 0 then
      .error (400, "El archivo " ++ quoteMark ++ f.filename ++ quoteMark ++ " está vacío")
    else if f.content_type ∉ ALLOWED_TYPES then
      .error (400, "Tipo de archivo no válido: " ++ f.filename)
    else if MAX_FILE_SIZE < f.content.length then
      .error (413, "El archivo " ++ quoteMark ++ f.filename ++ quoteMark ++ " excede el tamaño máximo")
    else validateLoop fs (total + f.content.length)

/-- main.py lines 178-195: convert every validated file, accumulating
(output filename, output bytes) for successes and the caught error message
for failures; a failing file never stops the loop.  The endpoint calls
convert_image_to_webp with `quality or 80` and default method/max_dimension. -/
def convLoop (pil : List Nat → Int → Int → Except String (List Nat)) (quality : Int) :
    List FileInput → List (String × List Nat) × List String
  | [] => ([], [])
  | f :: fs =>
    let rest := convLoop pil quality fs
    match convert_image_to_webp pil f.filename f.content quality 6 none with
    | .ok out => ((splitextRoot f.filename ++ ".webp", out) :: rest.1, rest.2)
    | .error e =>
      (rest.1,
        ("Error al procesar " ++ quoteMark ++ f.filename ++ quoteMark ++ ": " ++ imgErrorStr e) :: rest.2)

/-- Content of one member of the response archive: image bytes or the
plain-text error manifest. -/
inductive ZipData where
  | bytes : List Nat → ZipData
  | text : String → ZipData
deriving Repr, DecidableEq

/-- Observable outcome of the /convert-image endpoint: an HTTPException with
status code and detail, a raw single-file stream (filename, bytes,
X-Converted-Files, X-Failed-Files), or a zip response (entries in write order,
X-Converted-Files, X-Failed-Files, X-Total-Size). -/
inductive ImgResponse where
  | httpError : Nat → String → ImgResponse
  | singleStream : String → List Nat → Nat → Nat → ImgResponse
  | zipResponse : List (String × ZipData) → Nat → Nat → Nat → ImgResponse
deriving Repr, DecidableEq

/-- main.py lines 229-232: the text of the conversion_errors.txt manifest. -/
def errorLog (fails : List String) : String :=
  "ARCHIVOS QUE NO PUDIERON SER PROCESADOS:\n\n" ++
    String.intercalate "\n" (fails.map (fun e => "❌ " ++ e))

/-- main.py lines 197-247: batch-level failure when there is no success,
raw stream when there is exactly one success, zip packaging otherwise. -/
def buildResult (results : List (String × List Nat)) (fails : List String)
    (total : Nat) : ImgResponse :=
  match results with
  | [] =>
    .httpError 400 ("No se pudo procesar ningún archivo." ++
      (if fails.isEmpty then "" else " Errores: " ++ String.intercalate "; " fails))
  | [r] => .singleStream r.1 r.2 1 fails.length
  | _ =>
    .zipResponse
      (results.map (fun r => (r.1, ZipData.bytes r.2)) ++
        (if fails.isEmpty then []
         else [("conversion_errors.txt", ZipData.text (errorLog fails))]))
      results.length fails.length total

/-- The /convert-image endpoint body after the security checks
(main.py lines 106-247; rate limiting and auth, lines 102-104, are modelled
separately by check_rate_limit).  `pil` is threaded to convert_image_to_webp. -/
def convert_image (pil : List Nat → Int → Int → Except String (List Nat))
    (file : Option FileInput) (files : Option (List FileInput))
    (quality : Option Int) : ImgResponse :=
  if qualityOutOfRange quality then
    .httpError 400 "La calidad debe estar entre 60 y 100"
  else
    match processedFiles file files with
    | none => .httpError 400 "No se han proporcionado archivos para convertir."
    | some pfs =>
      if MAX_FILES < pfs.length then
        .httpError 400 "No se pueden procesar más de 20 archivos simultáneamente"
      else
        match validateLoop pfs 0 with
        | .error err => .httpError err.1 err.2
        | .ok total =>
          if MAX_TOTAL_SIZE < total then
            .httpError 413 "El tamaño total excede el límite de 50.0MB"
          else
            let conv := convLoop pil (qualityOr80 quality) pfs
            buildResult conv.1 conv.2 total

/-- HTTP status code of a response (stream and zip responses are 200). -/
def responseCode : ImgResponse → Nat
  | .httpError c _ => c
  | .singleStream _ _ _ _ => 200
  | .zipResponse _ _ _ _ => 200

/-- Whether a response is the zip (archive) form. -/
def isZipResponse : ImgResponse → Bool
  | .zipResponse _ _ _ _ => true
  | _ => false

/-! ### Video codec adapter (src/utils/convert_video.py lines 5-28) -/

/-- Whether the two NamedTemporaryFile(delete=False) files still exist on disk
when convert_video_to_webm finishes. -/
structure TempState where
  inputExists : Bool
  outputExists : Bool
deriving Repr, DecidableEq

/-- Outcome of convert_video_to_webm: returned bytes, or an uncaught
exception propagating out of the function. -/
inductive VideoResult where
  | ok : List Nat → VideoResult
  | exn : String → VideoResult
deriving Repr, DecidableEq

/-- Environment of one convert_video_to_webm call: which of the fallible
steps raises (reading the upload, writing the input temp file, launching the
subprocess, reading the output temp file), the transcoder's exit status, and
the bytes ffmpeg writes into the output file when it succeeds. -/
structure VideoEnv where
  readRaises : Bool
  writeRaises : Bool
  runRaises : Bool
  readOutputRaises : Bool
  exitCode : Nat
  transcoded : List Nat
deriving Repr, DecidableEq

/-- convert_video_to_webm (convert_video.py lines 5-28).

Both temp files are created up front with delete=False (lines 6-7), so they
exist on disk from the start; the output file is created empty.
subprocess.run is called without check and its exit status is never
inspected (line 20), so a non-zero exit does not raise and leaves the output
file empty.  The two os.unlink calls (lines 25-26) sit on the straight-line
path with no try/finally, so they run only when no step raised. -/
def convert_video_to_webm (env : VideoEnv) : VideoResult × TempState :=
  if env.readRaises then (.exn "file.read raised", ⟨true, true⟩)
  else if env.writeRaises then (.exn "writing input temp file raised", ⟨true, true⟩)
  else if env.runRaises then (.exn "subprocess.run raised", ⟨true, true⟩)
  else if env.readOutputRaises then (.exn "reading output temp file raised", ⟨true, true⟩)
  else (.ok (if env.exitCode = 0 then env.transcoded else []), ⟨false, false⟩)

/-! ### Projections of one conversion step, and concrete fixtures -/

/-- Success projection of one conversion step of main.py lines 181-189. -/
def succOf (pil : List Nat → Int → Int → Except String (List Nat)) (quality : Int)
    (f : FileInput) : Option (String × List Nat) :=
  match convert_image_to_webp pil f.filename f.content quality 6 none with
  | .ok out => some (splitextRoot f.filename ++ ".webp", out)
  | .error _ => none

/-- Failure projection of one conversion step of main.py lines 191-195. -/
def failOf (pil : List Nat → Int → Int → Except String (List Nat)) (quality : Int)
    (f : FileInput) : Option String :=
  match convert_image_to_webp pil f.filename f.content quality 6 none with
  | .ok _ => none
  | .error e =>
    some ("Error al procesar " ++ quoteMark ++ f.filename ++ quoteMark ++ ": " ++ imgErrorStr e)

/-! ### Concrete fixtures used by witnesses and counterexamples -/

/-- A PIL layer that encodes everything successfully to an empty output. -/
def pilZero : List Nat → Int → Int → Except String (List Nat) := fun _ _ _ => .ok []

/-- A PIL layer that raises on the payload [0] (a corrupt file) and encodes
every other payload to [9]. -/
def pilC1 : List Nat → Int → Int → Except String (List Nat) :=
  fun content _ _ => if content = [0] then .error "boom" else .ok [9]

/-- Corrupt upload: pilC1 rejects its payload. -/
def fileA : FileInput := ⟨"a.png", "image/png", [0]⟩

/-- Valid upload. -/
def fileB : FileInput := ⟨"b.png", "image/png", [1]⟩

/-- Valid upload. -/
def fileC : FileInput := ⟨"c.png", "image/png", [2]⟩

/-- A payload one byte over the 10 MiB per-file limit. -/
def bigContent : List Nat := List.replicate (MAX_FILE_SIZE + 1) 0

/-- Oversized upload with an allow-listed content type. -/
def fBig : FileInput := ⟨"big.jpg", "image/jpeg", bigContent⟩

/-- Oversized upload with a content type outside the allow-list. -/
def fBigTxt : FileInput := ⟨"big.jpg", "text/plain", bigContent⟩

/-! ### Structural lemmas about the endpoint pipeline -/

theorem bigContent_length : bigContent.length = MAX_FILE_SIZE + 1 :=
  List.length_replicate _ _

theorem convLoop_spec (pil : List Nat → Int → Int → Except String (List Nat))
    (quality : Int) (files : List FileInput) :
    convLoop pil quality files
      = (files.filterMap (succOf pil quality), files.filterMap (failOf pil quality)) := by
  induction files with
  | nil => rfl
  | cons f fs ih =>
    simp only [convLoop, ih, List.filterMap_cons, succOf, failOf]
    cases h : convert_image_to_webp pil f.filename f.content quality 6 none <;> simp [h]

theorem convert_image_eq_of_validation_error
    (pil : List Nat → Int → Int → Except String (List Nat))
    (file : Option FileInput) (files : Option (List FileInput)) (quality : Option Int)
    (pfs : List FileInput) (c : Nat) (msg : String)
    (hq : qualityOutOfRange quality = false)
    (hp : processedFiles file files = some pfs)
    (hn : ¬ MAX_FILES < pfs.length)
    (hv : validateLoop pfs 0 = .error (c, msg)) :
    convert_image pil file files quality = .httpError c msg := by
  simp only [convert_image, hq, hp, hv, Bool.false_eq_true, if_false]
  rw [if_neg hn]

theorem convert_image_eq_buildResult
    (pil : List Nat → Int → Int → Except String (List Nat))
    (file : Option FileInput) (files : Option (List FileInput)) (quality : Option Int)
    (pfs : List FileInput) (total : Nat)
    (hq : qualityOutOfRange quality = false)
    (hp : processedFiles file files = some pfs)
    (hn : ¬ MAX_FILES < pfs.length)
    (hv : validateLoop pfs 0 = .ok total)
    (ht : ¬ MAX_TOTAL_SIZE < total) :
    convert_image pil file files quality
      = buildResult (convLoop pil (qualityOr80 quality) pfs).1
          (convLoop pil (qualityOr80 quality) pfs).2 total := by
  simp only [convert_image, hq, hp, hv, Bool.false_eq_true, if_false]
  rw [if_neg hn, if_neg ht]

theorem validateLoop_oversize (pre : List FileInput) (f : FileInput) (rest : List FileInput)
    (hpre : ∀ g ∈ pre, g.content.length ≠ 0 ∧ g.content_type ∈ ALLOWED_TYPES ∧
      g.content.length ≤ MAX_FILE_SIZE)
    (hft : f.content_type ∈ ALLOWED_TYPES)
    (hfs : MAX_FILE_SIZE < f.content.length) :
    ∀ total, validateLoop (pre ++ f :: rest) total
      = .error (413, "El archivo " ++ quoteMark ++ f.filename ++ quoteMark ++
          " excede el tamaño máximo") := by
  induction pre with
  | nil =>
    intro total
    have h0 : ¬ f.content.length = 0 := by
      intro h; rw [h] at hfs; exact absurd hfs (by simp [MAX_FILE_SIZE])
    simp only [List.nil_append, validateLoop]
    rw [if_neg h0, if_neg (by simp [hft]), if_pos hfs]
  | cons g pre' ih =>
    intro total
    obtain ⟨h0, hty, hsz⟩ := hpre g (by simp)
    simp only [List.cons_append, validateLoop]
    rw [if_neg h0, if_neg (by simp [hty]), if_neg (by omega)]
    exact ih (fun x hx => hpre x (by simp [hx])) _

/-! ### Rate limiter lemmas -/

theorem rateLimitRun_cons_reject (now : ℚ) (rest st : List ℚ)
    (h : RATE_LIMIT_REQUESTS ≤ (pruneWindow now st).length) :
    rateLimitRun (now :: rest) st = rateLimitRun rest (pruneWindow now st) := by
  simp [rateLimitRun, check_rate_limit, h]

theorem rateLimitRun_cons_accept (now : ℚ) (rest st : List ℚ)
    (h : ¬ RATE_LIMIT_REQUESTS ≤ (pruneWindow now st).length) :
    rateLimitRun (now :: rest) st
      = ((rateLimitRun rest (pruneWindow now st ++ [now])).1,
         now :: (rateLimitRun rest (pruneWindow now st ++ [now])).2) := by
  simp [rateLimitRun, check_rate_limit, h]

theorem pruneWindow_cons_keep (now x : ℚ) (xs : List ℚ) (h : now - x < RATE_LIMIT_WINDOW) :
    pruneWindow now (x :: xs) = x :: pruneWindow now xs := by
  simp [pruneWindow, List.filter_cons, h]

theorem pruneWindow_cons_drop (now x : ℚ) (xs : List ℚ) (h : ¬ now - x < RATE_LIMIT_WINDOW) :
    pruneWindow now (x :: xs) = pruneWindow now xs := by
  simp [pruneWindow, List.filter_cons, h]

theorem pruneWindow_pruneWindow (m n : ℚ) (h : m ≤ n) (l : List ℚ) :
    pruneWindow n (pruneWindow m l) = pruneWindow n l := by
  induction l with
  | nil => rfl
  | cons x xs ih =>
    by_cases hm : m - x < RATE_LIMIT_WINDOW
    · rw [pruneWindow_cons_keep m x xs hm]
      by_cases hn : n - x < RATE_LIMIT_WINDOW
      · rw [pruneWindow_cons_keep n x _ hn, pruneWindow_cons_keep n x xs hn, ih]
      · rw [pruneWindow_cons_drop n x _ hn, pruneWindow_cons_drop n x xs hn, ih]
    · have hn : ¬ n - x < RATE_LIMIT_WINDOW := fun hc => hm (by linarith)
      rw [pruneWindow_cons_drop m x xs hm, pruneWindow_cons_drop n x xs hn, ih]

theorem rateLimitRun_admitted_future (T : ℚ) :
    ∀ (calls st : List ℚ), (∀ c ∈ calls, T < c) →
      ((rateLimitRun calls st).2.filter
        (fun t => decide (T - RATE_LIMIT_WINDOW < t ∧ t ≤ T))).length = 0 := by
  intro calls
  induction calls with
  | nil => intro st _; rfl
  | cons now rest ih =>
    intro st h
    have hnow : T < now := h now (by simp)
    by_cases hr : RATE_LIMIT_REQUESTS ≤ (pruneWindow now st).length
    · rw [rateLimitRun_cons_reject now rest st hr]
      exact ih _ (fun c hc => h c (by simp [hc]))
    · rw [rateLimitRun_cons_accept now rest st hr]
      have hd : ¬ (T - RATE_LIMIT_WINDOW < now ∧ now ≤ T) :=
        fun hc => absurd hnow (not_lt.mpr hc.2)
      rw [List.filter_cons, if_neg (by simpa using hd)]
      exact ih _ (fun c hc => h c (by simp [hc]))

theorem pruneWindow_preserves_window (T now : ℚ) (hT : now ≤ T) (l : List ℚ) :
    (pruneWindow now l).filter (fun t => decide (T - RATE_LIMIT_WINDOW < t ∧ t ≤ T))
      = l.filter (fun t => decide (T - RATE_LIMIT_WINDOW < t ∧ t ≤ T)) := by
  induction l with
  | nil => rfl
  | cons x xs ih =>
    by_cases hkeep : now - x < RATE_LIMIT_WINDOW
    · rw [pruneWindow_cons_keep now x xs hkeep, List.filter_cons, List.filter_cons, ih]
    · have hW : ¬ (T - RATE_LIMIT_WINDOW < x ∧ x ≤ T) := by
        intro hc
        exact hkeep (by linarith [hc.1, hc.2])
      rw [pruneWindow_cons_drop now x xs hkeep, ih, List.filter_cons,
        if_neg (by simpa using hW)]

theorem rateLimitRun_window_bound (T : ℚ) :
    ∀ (calls st : List ℚ), List.Sorted (· ≤ ·) calls →
      st.length ≤ RATE_LIMIT_REQUESTS →
      ((rateLimitRun calls st).2.filter
        (fun t => decide (T - RATE_LIMIT_WINDOW < t ∧ t ≤ T))).length
        + (st.filter (fun t => decide (T - RATE_LIMIT_WINDOW < t ∧ t ≤ T))).length
        ≤ RATE_LIMIT_REQUESTS := by
  intro calls
  induction calls with
  | nil =>
    intro st _ hst
    simp only [rateLimitRun, List.filter_nil, List.length_nil, Nat.zero_add]
    exact le_trans (List.length_filter_le _ st) hst
  | cons now rest ih =>
    intro st hs hst
    rw [List.sorted_cons] at hs
    obtain ⟨hnowle, hrest⟩ := hs
    by_cases hT : now ≤ T
    · by_cases hr : RATE_LIMIT_REQUESTS ≤ (pruneWindow now st).length
      · rw [rateLimitRun_cons_reject now rest st hr]
        have hb := ih (pruneWindow now st) hrest
          (le_trans (List.length_filter_le _ st) hst)
        rw [pruneWindow_preserves_window T now hT st] at hb
        exact hb
      · rw [rateLimitRun_cons_accept now rest st hr]
        have hlen1 : (pruneWindow now st).length < RATE_LIMIT_REQUESTS := not_le.mp hr
        have hlen2 : (pruneWindow now st ++ [now]).length ≤ RATE_LIMIT_REQUESTS := by
          rw [List.length_append]
          simpa using hlen1
        have hb := ih (pruneWindow now st ++ [now]) hrest hlen2
        rw [List.filter_append, pruneWindow_preserves_window T now hT st,
          List.length_append] at hb
        rw [List.filter_cons]
        by_cases hW : T - RATE_LIMIT_WINDOW < now ∧ now ≤ T
        · rw [if_pos (by simpa using hW)]
          rw [List.filter_cons, if_pos (by simpa using hW), List.filter_nil] at hb
          simp only [List.length_cons, List.length_nil] at hb ⊢
          omega
        · rw [if_neg (by simpa using hW)]
          rw [List.filter_cons, if_neg (by simpa using hW), List.filter_nil] at hb
          simp only [List.length_nil] at hb
          omega
    · have hfut : ∀ c ∈ now :: rest, T < c := by
        intro c hc
        rcases List.mem_cons.mp hc with h1 | h2
        · rw [h1]; exact not_le.mp hT
        · exact lt_of_lt_of_le (not_le.mp hT) (hnowle c h2)
      have h0 := rateLimitRun_admitted_future T (now :: rest) st hfut
      have h1 := le_trans (List.length_filter_le
        (fun t => decide (T - RATE_LIMIT_WINDOW < t ∧ t ≤ T)) st) hst
      omega

theorem rateLimitRun_state (n : ℚ) :
    ∀ (calls st : List ℚ), List.Sorted (· ≤ ·) calls → (∀ c ∈ calls, c ≤ n) →
      pruneWindow n (rateLimitRun calls st).1
        = pruneWindow n st ++ pruneWindow n (rateLimitRun calls st).2 := by
  intro calls
  induction calls with
  | nil => intro st _ _; simp [rateLimitRun, pruneWindow]
  | cons now rest ih =>
    intro st hs hn
    rw [List.sorted_cons] at hs
    obtain ⟨hnowle, hrest⟩ := hs
    have hnown : now ≤ n := hn now (by simp)
    by_cases hr : RATE_LIMIT_REQUESTS ≤ (pruneWindow now st).length
    · rw [rateLimitRun_cons_reject now rest st hr,
        ih _ hrest (fun c hc => hn c (by simp [hc])),
        pruneWindow_pruneWindow now n hnown]
    · rw [rateLimitRun_cons_accept now rest st hr]
      rw [ih _ hrest (fun c hc => hn c (by simp [hc]))]
      rw [show pruneWindow n (pruneWindow now st ++ [now])
            = pruneWindow n (pruneWindow now st) ++ pruneWindow n [now] from by
          simp [pruneWindow, List.filter_append],
        pruneWindow_pruneWindow now n hnown, List.append_assoc]
      congr 1
      by_cases h : n - now < RATE_LIMIT_WINDOW
      · rw [pruneWindow_cons_keep n now _ h]
        simp [pruneWindow, List.filter_cons, h]
      · rw [pruneWindow_cons_drop n now _ h]
        simp [pruneWindow, List.filter_cons, h]

theorem pruneWindow_replicate_zero (n : ℚ) (h : n - 0 < RATE_LIMIT_WINDOW) (j : Nat) :
    pruneWindow n (List.replicate j (0 : ℚ)) = List.replicate j 0 := by
  induction j with
  | zero => rfl
  | succ j ih => rw [List.replicate_succ, pruneWindow_cons_keep n 0 _ h, ih]

theorem rateLimitRun_zeros (k : Nat) :
    ∀ j : Nat, j + k ≤ RATE_LIMIT_REQUESTS →
      rateLimitRun (List.replicate k (0 : ℚ)) (List.replicate j (0 : ℚ))
        = (List.replicate (j + k) 0, List.replicate k 0) := by
  induction k with
  | zero => intro j h; simp [rateLimitRun]
  | succ k ih =>
    intro j h
    have h60 : (0 : ℚ) - 0 < RATE_LIMIT_WINDOW := by norm_num [RATE_LIMIT_WINDOW]
    have hprune : pruneWindow 0 (List.replicate j (0 : ℚ)) = List.replicate j 0 :=
      pruneWindow_replicate_zero 0 h60 j
    have hlt : ¬ RATE_LIMIT_REQUESTS ≤ (pruneWindow 0 (List.replicate j (0 : ℚ))).length := by
      rw [hprune, List.length_replicate]
      omega
    rw [List.replicate_succ, rateLimitRun_cons_accept 0 _ _ hlt, hprune,
      ← List.replicate_succ' j (0 : ℚ)]
    have hrec := ih (j + 1) (by omega)
    rw [hrec]
    have hidx : j + 1 + k = j + (k + 1) := by omega
    rw [hidx, ← List.replicate_succ]

/-! ### Claim theorems -/

/-- C1 counterexample: a batch of two validated files in which the first
fails and the second succeeds is answered with a raw single-file stream,
not with an archive, because main.py line 208 branches on the number of
successes alone. -/
theorem convert_image_one_failure_one_success_not_archive :
    isZipResponse (convert_image pilC1 none (some [fileA, fileB]) (some 80)) = false := by
  decide

/-- C1 (amended): under the reachability hypotheses of the conversion stage,
a batch with at least two successes and at least one failure is answered with
an archive holding exactly the successful outputs plus the single
conversion_errors.txt manifest built from the failure messages, and a raw
single-file byte stream is emitted exactly when there is exactly one success,
regardless of how many failures occurred. -/
theorem convert_image_packaging
    (pil : List Nat → Int → Int → Except String (List Nat))
    (file : Option FileInput) (files : Option (List FileInput)) (quality : Option Int)
    (pfs : List FileInput) (total : Nat)
    (results : List (String × List Nat)) (fails : List String)
    (hq : qualityOutOfRange quality = false)
    (hp : processedFiles file files = some pfs)
    (hn : ¬ MAX_FILES < pfs.length)
    (hv : validateLoop pfs 0 = .ok total)
    (ht : ¬ MAX_TOTAL_SIZE < total)
    (hc : convLoop pil (qualityOr80 quality) pfs = (results, fails)) :
    (2 ≤ results.length → fails ≠ [] →
      convert_image pil file files quality
        = .zipResponse (results.map (fun r => (r.1, ZipData.bytes r.2)) ++
            [("conversion_errors.txt", ZipData.text (errorLog fails))])
            results.length fails.length total)
    ∧ (∀ r, results = [r] →
        convert_image pil file files quality = .singleStream r.1 r.2 1 fails.length) := by
  have hbi := convert_image_eq_buildResult pil file files quality pfs total hq hp hn hv ht
  rw [hc] at hbi
  constructor
  · intro h2 hf
    rw [hbi]
    match results, h2 with
    | a :: b :: rs, _ =>
      cases fails with
      | nil => exact absurd rfl hf
      | cons e es => simp [buildResult]
  · intro r hr
    rw [hr] at hbi
    rw [hbi]
    rfl

theorem convert_image_packaging_witness :
    convert_image pilC1 none (some [fileA, fileB, fileC]) (some 80)
      = .zipResponse
          ([("b.webp", [9]), ("c.webp", [9])].map (fun r => (r.1, ZipData.bytes r.2)) ++
            [("conversion_errors.txt",
              ZipData.text (errorLog
                ["Error al procesar " ++ quoteMark ++ "a.png" ++ quoteMark ++ ": boom"]))])
          2 1 3 :=
  (convert_image_packaging pilC1 none (some [fileA, fileB, fileC]) (some 80)
      [fileA, fileB, fileC] 3 [("b.webp", [9]), ("c.webp", [9])]
      ["Error al procesar " ++ quoteMark ++ "a.png" ++ quoteMark ++ ": boom"]
      rfl rfl (by decide) rfl (by decide) rfl).1 (by decide) (by decide)

/-- C2: the claim that convert_video_to_webm releases both temporary files on
every exit path fails on the code: when subprocess.run raises (for example
ffmpeg is not installed), the function propagates the exception and both
NamedTemporaryFile(delete=False) files are left on disk, because the
os.unlink calls are not in a try/finally. -/
theorem convert_video_to_webm_leak_on_exception :
    convert_video_to_webm (VideoEnv.mk false false true false 0 [])
      = (VideoResult.exn "subprocess.run raised", TempState.mk true true)
    ∧ TempState.mk true true ≠ TempState.mk false false := by
  exact ⟨rfl, by decide⟩

/-- C3: the claim that a non-zero transcoder exit is reported as a typed
VideoConversionError fails on the code: the exit status of subprocess.run is
never inspected, so the function reads the (still empty) output temp file and
returns its bytes as a success; no VideoConversionError class exists in the
repository. -/
theorem convert_video_to_webm_nonzero_exit_returns_bytes :
    convert_video_to_webm (VideoEnv.mk false false false false 1 [5, 5])
      = (VideoResult.ok [], TempState.mk false false) := rfl

/-- C5: when every file of a validated, nonempty batch fails to convert,
the endpoint answers with HTTP 400 whose detail carries the concatenation of
all the individual failure messages (one per file), never a 200 with an
empty archive or body. -/
theorem convert_image_all_fail_400
    (pil : List Nat → Int → Int → Except String (List Nat))
    (file : Option FileInput) (files : Option (List FileInput)) (quality : Option Int)
    (pfs : List FileInput) (total : Nat)
    (hq : qualityOutOfRange quality = false)
    (hp : processedFiles file files = some pfs)
    (hn : ¬ MAX_FILES < pfs.length)
    (hv : validateLoop pfs 0 = .ok total)
    (ht : ¬ MAX_TOTAL_SIZE < total)
    (hne : pfs ≠ [])
    (hfail : ∀ f ∈ pfs, ∃ e,
      convert_image_to_webp pil f.filename f.content (qualityOr80 quality) 6 none = .error e) :
    convert_image pil file files quality
      = .httpError 400 ("No se pudo procesar ningún archivo." ++
          (" Errores: " ++
            String.intercalate "; " (convLoop pil (qualityOr80 quality) pfs).2))
    ∧ (convLoop pil (qualityOr80 quality) pfs).2.length = pfs.length := by
  have hbi := convert_image_eq_buildResult pil file files quality pfs total hq hp hn hv ht
  have hres : (convLoop pil (qualityOr80 quality) pfs).1 = [] := by
    rw [convLoop_spec]
    refine List.filterMap_eq_nil_iff.mpr (fun f hf => ?_)
    obtain ⟨e, he⟩ := hfail f hf
    simp [succOf, he]
  have hflen : ∀ l : List FileInput,
      (∀ f ∈ l, ∃ e, convert_image_to_webp pil f.filename f.content
        (qualityOr80 quality) 6 none = .error e) →
      (l.filterMap (failOf pil (qualityOr80 quality))).length = l.length := by
    intro l
    induction l with
    | nil => intro _; rfl
    | cons f fs ih =>
      intro h
      obtain ⟨e, he⟩ := h f (by simp)
      simp [List.filterMap_cons, failOf, he, ih (fun x hx => h x (by simp [hx]))]
  have hlen : (convLoop pil (qualityOr80 quality) pfs).2.length = pfs.length := by
    rw [convLoop_spec]; exact hflen pfs hfail
  refine ⟨?_, hlen⟩
  rw [hbi, hres]
  have hfe : ((convLoop pil (qualityOr80 quality) pfs).2).isEmpty = false := by
    cases hcc : (convLoop pil (qualityOr80 quality) pfs).2 with
    | nil => rw [hcc] at hlen; cases pfs with
      | nil => exact absurd rfl hne
      | cons a l => simp at hlen
    | cons a l => rfl
  simp [buildResult, hfe]

theorem convert_image_all_fail_400_witness :
    convert_image pilC1 none (some [fileA]) (some 80)
      = .httpError 400 ("No se pudo procesar ningún archivo." ++
          (" Errores: " ++
            String.intercalate "; " (convLoop pilC1 (qualityOr80 (some 80)) [fileA]).2))
    ∧ (convLoop pilC1 (qualityOr80 (some 80)) [fileA]).2.length = [fileA].length :=
  convert_image_all_fail_400 pilC1 none (some [fileA]) (some 80) [fileA] 1
    rfl rfl (by decide) rfl (by decide) (by decide)
    (by
      intro f hf
      simp only [List.mem_singleton] at hf
      subst hf
      exact ⟨.imageConversionError "boom", rfl⟩)

/-- C6: the conversion stage is a fold with per-file fault isolation: each
file of the validated batch is converted independently, a failing file is
recorded as a failure message tagged with its name and error text while
processing continues, and the successful outputs appear in the same order as
their inputs (both components are order-preserving filterMaps of the input
list). -/
theorem convLoop_fault_isolation
    (pil : List Nat → Int → Int → Except String (List Nat))
    (quality : Int) (files : List FileInput) :
    convLoop pil quality files
      = (files.filterMap (succOf pil quality), files.filterMap (failOf pil quality)) :=
  convLoop_spec pil quality files

/-- C7 counterexample: a request with zero files and an out-of-range quality
is rejected with the quality message, not the no-files message, because
main.py checks quality (line 116) before the file presence check
(lines 122-133). -/
theorem convert_image_quality_checked_first :
    convert_image pilZero none none (some 50)
        = .httpError 400 "La calidad debe estar entre 60 y 100"
    ∧ convert_image pilZero none none (some 50)
        ≠ .httpError 400 "No se han proporcionado archivos para convertir." := by
  decide

/-- C7 (amended): with the quality absent or in range, a request that
supplies no usable files fails with the no-files reason and a request with
more than MAX_FILES files fails with the too-many-files reason, in both
cases for every possible converter (so before any per-file check or
conversion); the quality rule, however, is checked before the file-count
rule, so an out-of-range quality wins over both. -/
theorem convert_image_validation_order
    (pil : List Nat → Int → Int → Except String (List Nat))
    (file : Option FileInput) (files : Option (List FileInput)) (quality : Option Int) :
    (qualityOutOfRange quality = false → processedFiles file files = none →
      convert_image pil file files quality
        = .httpError 400 "No se han proporcionado archivos para convertir.")
    ∧ (∀ pfs, qualityOutOfRange quality = false →
        processedFiles file files = some pfs → MAX_FILES < pfs.length →
        convert_image pil file files quality
          = .httpError 400 "No se pueden procesar más de 20 archivos simultáneamente")
    ∧ (qualityOutOfRange quality = true →
        convert_image pil file files quality
          = .httpError 400 "La calidad debe estar entre 60 y 100") := by
  refine ⟨fun hq hp => ?_, fun pfs hq hp hc => ?_, fun hq => ?_⟩
  · simp only [convert_image, hq, Bool.false_eq_true, if_false, hp]
  · simp only [convert_image, hq, Bool.false_eq_true, if_false, hp]
    rw [if_pos hc]
  · simp only [convert_image, hq, if_true]

theorem convert_image_validation_order_witness :
    convert_image pilZero none none (some 70)
        = .httpError 400 "No se han proporcionado archivos para convertir."
    ∧ convert_image pilZero none (some (List.replicate 21 fileA)) (some 70)
        = .httpError 400 "No se pueden procesar más de 20 archivos simultáneamente"
    ∧ convert_image pilZero none none (some 101)
        = .httpError 400 "La calidad debe estar entre 60 y 100" :=
  ⟨(convert_image_validation_order pilZero none none (some 70)).1 rfl rfl,
   (convert_image_validation_order pilZero none (some (List.replicate 21 fileA))
      (some 70)).2.1 (List.replicate 21 fileA) rfl rfl (by decide),
   (convert_image_validation_order pilZero none none (some 101)).2.2 rfl⟩

/-- C8 counterexample: a single upload one byte over the 10 MiB limit whose
declared content type is not allow-listed is answered with HTTP 400 (the
type error, checked first at main.py line 155), not HTTP 413, so an upload
containing an oversized file does not always produce 413. -/
theorem convert_image_oversize_bad_type_400 :
    responseCode (convert_image pilZero none (some [fBigTxt]) none) = 400
    ∧ responseCode (convert_image pilZero none (some [fBigTxt]) none) ≠ 413 := by
  have h0 : ¬ fBigTxt.content.length = 0 := by
    rw [show fBigTxt.content = bigContent from rfl, bigContent_length]
    omega
  have hv : validateLoop [fBigTxt] 0
      = .error (400, "Tipo de archivo no válido: " ++ fBigTxt.filename) := by
    simp only [validateLoop]
    rw [if_neg h0, if_pos (by decide)]
  have h := convert_image_eq_of_validation_error pilZero none (some [fBigTxt]) none
    [fBigTxt] 400 ("Tipo de archivo no válido: " ++ fBigTxt.filename)
    rfl rfl (by decide) hv
  rw [h]
  exact ⟨rfl, by decide⟩

/-- C8 (amended): whenever validation reaches a file exceeding the 10 MiB
per-file limit — quality absent or in range, every earlier file passing all
its per-file checks, and the oversized file itself of an allow-listed
content type — the endpoint answers HTTP 413, and it does so for every
possible converter, so no codec is invoked for the request: validation
inspects only metadata and byte length. -/
theorem convert_image_oversize_413
    (pil : List Nat → Int → Int → Except String (List Nat))
    (file : Option FileInput) (files : Option (List FileInput)) (quality : Option Int)
    (pre : List FileInput) (f : FileInput) (rest : List FileInput)
    (hq : qualityOutOfRange quality = false)
    (hp : processedFiles file files = some (pre ++ f :: rest))
    (hn : ¬ MAX_FILES < (pre ++ f :: rest).length)
    (hpre : ∀ g ∈ pre, g.content.length ≠ 0 ∧ g.content_type ∈ ALLOWED_TYPES ∧
      g.content.length ≤ MAX_FILE_SIZE)
    (hft : f.content_type ∈ ALLOWED_TYPES)
    (hfs : MAX_FILE_SIZE < f.content.length) :
    convert_image pil file files quality
      = .httpError 413 ("El archivo " ++ quoteMark ++ f.filename ++ quoteMark ++
          " excede el tamaño máximo") :=
  convert_image_eq_of_validation_error pil file files quality (pre ++ f :: rest) 413 _
    hq hp hn (validateLoop_oversize pre f rest hpre hft hfs 0)

theorem convert_image_oversize_413_witness :
    convert_image pilZero none (some [fBig]) none
      = .httpError 413 ("El archivo " ++ quoteMark ++ "big.jpg" ++ quoteMark ++
          " excede el tamaño máximo") :=
  convert_image_oversize_413 pilZero none (some [fBig]) none [] fBig []
    rfl rfl (by decide)
    (by intro g hg; exact absurd hg (List.not_mem_nil g))
    (by decide)
    (by rw [show fBig.content = bigContent from rfl, bigContent_length]
        exact Nat.lt_succ_self _)

/-- C9: when the single `file` field carries a filename, it alone is
processed and the `files` list is ignored entirely: the processed set is
exactly [file] and the endpoint's response does not depend on `files`;
the `files` list is consulted only when `file` is absent or unnamed. -/
theorem convert_image_single_file_precedence
    (f : FileInput) (hf : f.filename ≠ "") :
    (∀ files, processedFiles (some f) files = some [f])
    ∧ (∀ pil files quality,
        convert_image pil (some f) files quality
          = convert_image pil (some f) none quality) := by
  have hp : ∀ files, processedFiles (some f) files = some [f] := by
    intro files
    simp only [processedFiles]
    rw [if_pos hf]
  exact ⟨hp, fun pil files quality => by simp only [convert_image, hp]⟩

theorem convert_image_single_file_precedence_witness :
    processedFiles (some fileA) (some [fileB]) = some [fileA]
    ∧ convert_image pilC1 (some fileA) (some [fileB]) (some 80)
        = convert_image pilC1 (some fileA) none (some 80) :=
  ⟨(convert_image_single_file_precedence fileA (by decide)).1 (some [fileB]),
   (convert_image_single_file_precedence fileA (by decide)).2 pilC1 (some [fileB]) (some 80)⟩

/-- C10: convert_image_to_webp re-enforces the per-file size limit on its
own: with valid quality, method and max_dimension parameters, every payload
strictly larger than 10 MiB is rejected with ImageConversionError for every
possible PIL layer, hence before any decoding. -/
theorem convert_image_to_webp_size_guard
    (pil : List Nat → Int → Int → Except String (List Nat))
    (filename : String) (content : List Nat) (quality method : Int)
    (maxDim : Option Int)
    (hq : 60 ≤ quality ∧ quality ≤ 100)
    (hm : 0 ≤ method ∧ method ≤ 6)
    (hd : maxDim.any (fun d => decide (d ≤ 0)) = false)
    (hlen : 10 * 1024 * 1024 < content.length) :
    convert_image_to_webp pil filename content quality method maxDim
      = .error (.imageConversionError ("El archivo " ++ quoteMark ++ filename ++
          quoteMark ++ " excede el tamaño máximo de 10MB")) := by
  simp only [convert_image_to_webp]
  rw [if_neg (not_not_intro hq), if_neg (not_not_intro hm), hd]
  simp only [Bool.false_eq_true, if_false]
  rw [if_neg (by omega), if_pos hlen]

theorem convert_image_to_webp_size_guard_witness :
    convert_image_to_webp pilZero "big.jpg" bigContent 80 6 none
      = .error (.imageConversionError ("El archivo " ++ quoteMark ++ "big.jpg" ++
          quoteMark ++ " excede el tamaño máximo de 10MB")) :=
  convert_image_to_webp_size_guard pilZero "big.jpg" bigContent 80 6 none
    (by decide) (by decide) rfl
    (by rw [bigContent_length]; exact Nat.lt_succ_self _)

/-- C4: for one client identity and any non-decreasing sequence of call
times, (a) at most RATE_LIMIT_REQUESTS admitted requests lie in any trailing
RATE_LIMIT_WINDOW-second interval; (b) a call arriving while
RATE_LIMIT_REQUESTS admitted timestamps are still inside the window is
rejected and its timestamp is not recorded (the new stored list is just the
admitted list pruned to the window); (c) after every call, every stored
timestamp t satisfies now - t < RATE_LIMIT_WINDOW. -/
theorem check_rate_limit_sliding_window :
    (∀ calls : List ℚ, List.Sorted (· ≤ ·) calls → ∀ T : ℚ,
      ((rateLimitRun calls []).2.filter
        (fun t => decide (T - RATE_LIMIT_WINDOW < t ∧ t ≤ T))).length
        ≤ RATE_LIMIT_REQUESTS)
    ∧ (∀ (pre : List ℚ) (now : ℚ), List.Sorted (· ≤ ·) (pre ++ [now]) →
        RATE_LIMIT_REQUESTS ≤ (pruneWindow now (rateLimitRun pre []).2).length →
        check_rate_limit (rateLimitRun pre []).1 now
          = (false, pruneWindow now (rateLimitRun pre []).2))
    ∧ (∀ (st : List ℚ) (now : ℚ), ∀ t ∈ (check_rate_limit st now).2,
        now - t < RATE_LIMIT_WINDOW) := by
  refine ⟨?_, ?_, ?_⟩
  · intro calls hs T
    have h := rateLimitRun_window_bound T calls [] hs (by simp [RATE_LIMIT_REQUESTS])
    simpa using h
  · intro pre now hs hfull
    obtain ⟨hpre, -, hle⟩ := List.pairwise_append.mp hs
    have hstate := rateLimitRun_state now pre [] hpre
      (fun c hc => hle c hc now (by simp))
    rw [show pruneWindow now ([] : List ℚ) = [] from rfl, List.nil_append] at hstate
    simp only [check_rate_limit, hstate]
    rw [if_pos hfull]
  · intro st now t ht
    simp only [check_rate_limit] at ht
    by_cases hr : RATE_LIMIT_REQUESTS ≤ (pruneWindow now st).length
    · rw [if_pos hr] at ht
      have := List.of_mem_filter ht
      simpa using this
    · rw [if_neg hr] at ht
      rcases List.mem_append.mp ht with h1 | h2
      · have := List.of_mem_filter h1
        simpa using this
      · have : t = now := by simpa using h2
        rw [this]
        simp only [sub_self]
        norm_num [RATE_LIMIT_WINDOW]

theorem check_rate_limit_sliding_window_witness :
    ((rateLimitRun [(0 : ℚ), 30] []).2.filter
      (fun t => decide ((30 : ℚ) - RATE_LIMIT_WINDOW < t ∧ t ≤ 30))).length
      ≤ RATE_LIMIT_REQUESTS
    ∧ check_rate_limit (rateLimitRun (List.replicate 20 (0 : ℚ)) []).1 1
        = (false, pruneWindow 1 (rateLimitRun (List.replicate 20 (0 : ℚ)) []).2)
    ∧ (30 : ℚ) - 0 < RATE_LIMIT_WINDOW :=
  ⟨check_rate_limit_sliding_window.1 [0, 30]
      (by norm_num [List.sorted_cons]) 30,
   check_rate_limit_sliding_window.2.1 (List.replicate 20 (0 : ℚ)) 1
      (by
        refine List.pairwise_append.mpr ⟨?_, ?_, ?_⟩
        · exact List.pairwise_replicate.mpr (Or.inr le_rfl)
        · simp
        · intro a ha b hb
          rw [List.eq_of_mem_replicate ha]
          simp only [List.mem_singleton] at hb
          rw [hb]
          norm_num)
      (by
        rw [show (rateLimitRun (List.replicate 20 (0 : ℚ)) []).2
              = List.replicate 20 (0 : ℚ) from by
            have := rateLimitRun_zeros 20 0 (by norm_num [RATE_LIMIT_REQUESTS])
            simp only [List.replicate_zero] at this
            rw [this],
          pruneWindow_replicate_zero 1 (by norm_num [RATE_LIMIT_WINDOW]) 20,
          List.length_replicate]
        norm_num [RATE_LIMIT_REQUESTS]),
   check_rate_limit_sliding_window.2.2 [0] 30 0
      (by norm_num [check_rate_limit, pruneWindow, RATE_LIMIT_REQUESTS, RATE_LIMIT_WINDOW])⟩
